import Mathlib
/-!
Verification development for the Crown Interiors invoicing application.

The definitions below are shallow embeddings of the JavaScript source:

* `server/src/utils/invoiceNumber.js` — sequential invoice-number generator
  (`generateInvoiceNumber`);
* `client/src/hooks/useInvoiceCalculations.js` — derived totals
  (`updateLineAmount`, `calculations`);
* `server/src/validations/invoiceSchema.js` — the Joi create schema
  (`createInvoiceSchemaValid`);
* `server/src/services/invoiceService.js` — `InvoiceService.create` and
  `InvoiceService.duplicate`, plus a sequential step relation over the
  stored invoice table;
* `server/src/utils/amountToWords.js` — Indian-system amount-in-words
  (`convertToWords`, `amountToWords`);
* `client/src/store/invoiceStore.js` — client-side list filtering/sorting
  (`getFilteredInvoices`);
* `server/src/middleware/auth.js` — bearer-token authentication
  (`authenticate`).

JavaScript numbers are modelled as rationals (`ℚ`), with decimal rounding
(`toFixed(2)`) made explicit; strings are Lean `String`s, with character-level
helpers where the JS code works through `String.prototype` methods.
-/
/-! ## Decimal digit strings

JS renders `nextNumber` with `String(...)` (decimal notation) and parses the
regex capture with `parseInt(..., 10)`.  `natToDecimalAux` carries explicit
fuel so that the definition is structurally recursive (the fuel `n + 1`
always suffices because the value shrinks at every recursive call).
-/
/-- Character for a single decimal digit (`0 ≤ n ≤ 9` in all uses). -/
def digitChar (n : Nat) : Char := Char.ofNat (48 + n)
/-- Fuel-indexed decimal rendering of a natural number, least significant
digit produced last, as `String(n)` does in JS. -/
def natToDecimalAux : Nat → Nat → List Char
  | 0, _ => []
  | fuel + 1, n =>
    if n < 10 then [digitChar n]
    else natToDecimalAux fuel (n / 10) ++ [digitChar (n % 10)]
/-- Decimal rendering of a natural number: the digits of `String(n)`. -/
def natToDecimal (n : Nat) : List Char := natToDecimalAux (n + 1) n
/-- Value of a digit string, as `parseInt(s, 10)` computes it on an
all-digit string. -/
def digitsToNat (cs : List Char) : Nat :=
  cs.foldl (fun acc c => 10 * acc + (c.toNat - 48)) 0
/-- Left pad with `'0'` to length (at least) 3:
`String(n).padStart(MIN_DIGITS, '0')` with `MIN_DIGITS = 3`. -/
def padStart3 (cs : List Char) : List Char :=
  List.replicate (3 - cs.length) '0' ++ cs
/-! ## Invoice number generator (`server/src/utils/invoiceNumber.js`)

`generateInvoiceNumber(userId)` queries the most recently created invoice of
the user (modelled here as an `Except` of an optional latest invoice number,
covering the three outcomes of the Supabase query: database error, no prior
invoice, or a latest row), applies the regex `CI-(\d+)` to its number,
increments the captured value (restarting at 1 when there is no match), and
formats the result as `CI-` plus the value zero-padded to at least 3 digits.
-/
/-- Database error surfaced by the Supabase client. -/
structure DbError where
  message : String
deriving DecidableEq
/-- Anchored match of the regex `CI-(\d+)` at the head of the character list:
on success, returns the greedy capture of the digit group. -/
def matchCIAt : List Char → Option (List Char)
  | 'C' :: 'I' :: '-' :: rest =>
    let ds := rest.takeWhile Char.isDigit
    if ds.isEmpty then none else some ds
  | _ => none
/-- Left-to-right scan for the first match of `CI-(\d+)`, as
`lastNumber.match(/CI-(\d+)/)` finds it; returns the digit capture. -/
def findCImatch : List Char → Option (List Char)
  | [] => none
  | c :: rest =>
    match matchCIAt (c :: rest) with
    | some ds => some ds
    | none => findCImatch rest
/-- Numeric part of the next invoice number: 1 when the user has no prior
invoice or the latest number does not match `CI-(\d+)`, and the captured
value plus one otherwise. -/
def nextNumberNat (latest : Option String) : Nat :=
  match latest with
  | none => 1
  | some lastNumber =>
    match findCImatch lastNumber.data with
    | some ds => digitsToNat ds + 1
    | none => 1
/-- Rendering of an invoice number: the `CI` constant plus the zero-padded
(minimum 3 digits) decimal value. -/
def formatInvoiceNumber (n : Nat) : String :=
  "CI-" ++ String.mk (padStart3 (natToDecimal n))
/-- The invoice number generator.  A database error from the latest-invoice
query is rethrown unchanged; otherwise the next number is produced from the
(optional) latest invoice number. -/
def generateInvoiceNumber (queryResult : Except DbError (Option String)) :
    Except DbError String :=
  match queryResult with
  | .error e => .error e
  | .ok latest => .ok (formatInvoiceNumber (nextNumberNat latest))
/-- Digit capture that `numberValue` reads back out of a rendered invoice
number; used to state monotonicity of the generated numbers. -/
def numberValue (s : String) : Nat :=
  match findCImatch s.data with
  | some ds => digitsToNat ds
  | none => 0
/-! ## Derived totals (`client/src/hooks/useInvoiceCalculations.js`)

`updateLineAmount` stores `parseFloat((qty * rate).toFixed(2))` into each
line; `calculations` then derives `{subtotal, taxAmount, total}` from the
stored line amounts and the tax/discount inputs.  `toFixed(2)` rounding on a
nonnegative value is `round2`.
-/
/-- Rounding to two decimal places, as `parseFloat(x.toFixed(2))`. -/
def round2 (q : ℚ) : ℚ := (round (q * 100) : ℤ) / 100
/-- One service line of the invoice form: the watched `quantity` and `rate`
fields plus the stored derived `amount`. -/
structure ServiceLine where
  quantity : ℚ
  rate : ℚ
  amount : ℚ
deriving DecidableEq
/-- Amount written back by `updateLineAmount`:
`parseFloat((qty * rate).toFixed(2))`. -/
def updateLineAmount (qty rate : ℚ) : ℚ := round2 (qty * rate)
/-- Result of the `calculations` memo. -/
structure Calculations where
  subtotal : ℚ
  taxAmount : ℚ
  total : ℚ
deriving DecidableEq
/-- Derived totals:
`subtotal` is the reduce-sum of the stored line amounts, `taxAmount` is
`parseFloat(((subtotal * pct) / 100).toFixed(2))` when tax is enabled and
`0` otherwise, and `total` is
`parseFloat(Math.max(subtotal + taxAmount - discount, 0).toFixed(2))`. -/
def calculations (services : List ServiceLine) (taxEnabled : Bool)
    (taxPercentage discountAmount : ℚ) : Calculations :=
  let subtotal := services.foldl (fun sum s => sum + s.amount) 0
  let taxAmount := if taxEnabled then round2 (subtotal * taxPercentage / 100) else 0
  let discount := discountAmount
  let total := round2 (max (subtotal + taxAmount - discount) 0)
  { subtotal := subtotal, taxAmount := taxAmount, total := total }
/-! ## Invoice payloads, validation, and the invoice service

`createInvoiceSchema` (`server/src/validations/invoiceSchema.js`) validates
the request body; `InvoiceService.create` then builds the row inserted into
the `invoices` table, and `InvoiceService.duplicate` re-creates from a copy
of an existing row.  The Supabase calls are abstracted: the latest invoice
number read by the generator and the database-assigned row id are passed in
as arguments, so that `create` is the pure row-building function the service
sends to `insert`.
-/
/-- One entry of the `services` JSONB array. -/
structure ServiceItem where
  description : String
  quantity : ℚ
  rate : ℚ
  amount : ℚ
deriving DecidableEq
/-- A validated create/duplicate payload (the fields of
`createInvoiceSchema`; optional fields are `Option`, with `none` covering
both absent and `null`). -/
structure InvoicePayload where
  document_type : String
  customer_name : String
  customer_phone : String
  customer_address : Option String
  customer_email : Option String
  services : List ServiceItem
  subtotal : ℚ
  tax_enabled : Bool
  tax_percentage : Option ℚ
  tax_amount : ℚ
  discount_amount : Option ℚ
  total_amount : ℚ
  invoice_date : String
  due_date : Option String
  notes : Option String
deriving DecidableEq
/-- A row of the `invoices` table (the columns written by the service). -/
structure InvoiceRecord where
  id : Nat
  user_id : String
  invoice_number : String
  document_type : String
  status : String
  customer_name : String
  customer_phone : String
  customer_address : Option String
  customer_email : Option String
  services : List ServiceItem
  subtotal : ℚ
  tax_enabled : Bool
  tax_percentage : Option ℚ
  tax_amount : ℚ
  discount_amount : ℚ
  total_amount : ℚ
  invoice_date : String
  due_date : Option String
  notes : Option String
deriving DecidableEq
/-- JS `value || null` on an optional string field: `null`, `undefined` and
the empty string all collapse to `null`. -/
def orNull (v : Option String) : Option String :=
  match v with
  | none => none
  | some s => if s = "" then none else some s
/-- Joi pattern `/^[+]?[0-9]{10,13}$/` for `customer_phone`. -/
def phonePattern (s : String) : Bool :=
  let cs := match s.data with
    | '+' :: rest => rest
    | cs => cs
  decide (10 ≤ cs.length) && decide (cs.length ≤ 13) && cs.all Char.isDigit
/-- Joi constraints of one `services` entry (`serviceSchema`). -/
def serviceSchemaOk (s : ServiceItem) : Prop :=
  2 ≤ s.description.length ∧ s.description.length ≤ 200
    ∧ 1 ≤ s.quantity ∧ s.quantity ≤ 9999
    ∧ 0 ≤ s.rate ∧ s.rate ≤ 99999999
    ∧ 0 ≤ s.amount
/-- Joi `Joi.string().allow('', null).max(maxLen)` on an optional field. -/
def optStrOk (v : Option String) (maxLen : Nat) : Prop :=
  ∀ t, v = some t → t.length ≤ maxLen
/-- Joi `Joi.string().email().allow('', null)`; the email format check is
abstracted to the presence of an at sign (the exact Joi grammar imposes no
constraint relevant to any claim). -/
def emailFieldOk (v : Option String) : Prop :=
  ∀ t, v = some t → t ≠ "" → '@' ∈ t.data
/-- Acceptance by `createInvoiceSchema`.  The date fields are accepted by
Joi's ISO-date parser and are not constrained further here; note that the
financial fields are only required to be individually nonnegative — no
cross-field relation between `subtotal`, `tax_amount`, `discount_amount`
and `total_amount` is checked. -/
def createInvoiceSchemaValid (p : InvoicePayload) : Prop :=
  (p.document_type = "invoice" ∨ p.document_type = "estimate")
    ∧ 2 ≤ p.customer_name.length ∧ p.customer_name.length ≤ 100
    ∧ phonePattern p.customer_phone = true
    ∧ optStrOk p.customer_address 300
    ∧ emailFieldOk p.customer_email
    ∧ p.services ≠ [] ∧ (∀ s ∈ p.services, serviceSchemaOk s)
    ∧ 0 ≤ p.subtotal
    ∧ (p.tax_enabled = true → p.tax_percentage.isSome)
    ∧ (∀ q, p.tax_percentage = some q → 0 ≤ q ∧ q ≤ 100)
    ∧ 0 ≤ p.tax_amount
    ∧ (∀ q, p.discount_amount = some q → 0 ≤ q)
    ∧ 0 ≤ p.total_amount
    ∧ optStrOk p.notes 1000
namespace InvoiceService
/-- Row built by `InvoiceService.create`: the next sequential invoice
number, status `'draft'`, and otherwise the validated payload fields
(optional ones normalized by `|| null`, the discount by `|| 0`), inserted
with the database-assigned id `newId`. -/
def create (userId : String) (invoiceData : InvoicePayload)
    (latest : Option String) (newId : Nat) : InvoiceRecord :=
  { id := newId
    user_id := userId
    invoice_number := formatInvoiceNumber (nextNumberNat latest)
    document_type := invoiceData.document_type
    status := "draft"
    customer_name := invoiceData.customer_name
    customer_phone := invoiceData.customer_phone
    customer_address := orNull invoiceData.customer_address
    customer_email := orNull invoiceData.customer_email
    services := invoiceData.services
    subtotal := invoiceData.subtotal
    tax_enabled := invoiceData.tax_enabled
    tax_percentage := invoiceData.tax_percentage
    tax_amount := invoiceData.tax_amount
    discount_amount := invoiceData.discount_amount.getD 0
    total_amount := invoiceData.total_amount
    invoice_date := invoiceData.invoice_date
    due_date := orNull invoiceData.due_date
    notes := orNull invoiceData.notes }
/-- Payload assembled by `InvoiceService.duplicate` from the fetched
original: all fields copied, except today's date, a cleared due date, and
no status (create always restarts at `'draft'`). -/
def duplicatedData (original : InvoiceRecord) (today : String) : InvoicePayload :=
  { document_type := original.document_type
    customer_name := original.customer_name
    customer_phone := original.customer_phone
    customer_address := original.customer_address
    customer_email := original.customer_email
    services := original.services
    subtotal := original.subtotal
    tax_enabled := original.tax_enabled
    tax_percentage := original.tax_percentage
    tax_amount := original.tax_amount
    discount_amount := some original.discount_amount
    total_amount := original.total_amount
    invoice_date := today
    due_date := none
    notes := original.notes }
/-- `InvoiceService.duplicate`: fetch the original (passed in), build the
duplicated payload, and create. -/
def duplicate (userId : String) (original : InvoiceRecord)
    (latest : Option String) (newId : Nat) (today : String) : InvoiceRecord :=
  create userId (duplicatedData original today) latest newId
end InvoiceService
/-! ## Sequential state machine over the invoices table

States are the table contents in creation order (`created_at` order equals
list order, since rows are only appended).  A step is one `create` or one
`duplicate` request, run to completion before the next; the generator's
latest-invoice query reads the last row of the requesting user, and the
database assigns a fresh row id.
-/
/-- Rows of the table belonging to `uid`, in creation order. -/
def invoicesOf (uid : String) (s : List InvoiceRecord) : List InvoiceRecord :=
  s.filter (fun r => r.user_id == uid)
/-- Result of the generator's latest-invoice query for `uid`: the invoice
number of the most recently created row, if any. -/
def latestNumberOf (uid : String) (s : List InvoiceRecord) : Option String :=
  (invoicesOf uid s).getLast?.map (fun r => r.invoice_number)
/-- One sequential request against the service. -/
inductive Step : List InvoiceRecord → List InvoiceRecord → Prop
  | create (s : List InvoiceRecord) (uid : String) (d : InvoicePayload) (newId : Nat)
      (hid : ∀ r ∈ s, r.id ≠ newId) :
      Step s (s ++ [InvoiceService.create uid d (latestNumberOf uid s) newId])
  | dup (s : List InvoiceRecord) (uid : String) (orig : InvoiceRecord)
      (today : String) (newId : Nat)
      (horig : orig ∈ s) (huid : orig.user_id = uid)
      (hid : ∀ r ∈ s, r.id ≠ newId) :
      Step s (s ++ [InvoiceService.duplicate uid orig (latestNumberOf uid s) newId today])
/-- Table contents reachable from the empty table by sequential requests. -/
inductive Reachable : List InvoiceRecord → Prop
  | nil : Reachable []
  | step {s t : List InvoiceRecord} : Reachable s → Step s t → Reachable t
/-- Inductive invariant: every user's invoice numbers are exactly the
canonical numbers `CI-001, CI-002, ...` in creation order. -/
def NumbersCanonical (s : List InvoiceRecord) : Prop :=
  ∀ uid, (invoicesOf uid s).map (fun r => r.invoice_number)
    = (List.range' 1 (invoicesOf uid s).length).map formatInvoiceNumber
/-! ## Amount in words (`server/src/utils/amountToWords.js`)

`convertToWords` recursively renders a nonnegative integer in the Indian
grouping system (Crore / Lakh / Thousand / Hundred); `amountToWords` splits
a rupee amount into `Math.floor` rupees and a rounded paise remainder.
`convertToWordsAux` carries fuel to stay structurally recursive; the value
strictly decreases at every recursive call, so fuel `num + 1` suffices.
-/
/-- Words for 0–19 (`ones` array). -/
def onesWords : List String :=
  ["", "One", "Two", "Three", "Four", "Five", "Six", "Seven", "Eight", "Nine",
   "Ten", "Eleven", "Twelve", "Thirteen", "Fourteen", "Fifteen", "Sixteen",
   "Seventeen", "Eighteen", "Nineteen"]
/-- Words for tens multiples (`tens` array). -/
def tensWords : List String :=
  ["", "", "Twenty", "Thirty", "Forty", "Fifty", "Sixty", "Seventy", "Eighty",
   "Ninety"]
/-- JS `String.prototype.trim` restricted to the space padding this file
produces: drops leading and trailing spaces. -/
def trimSpaces (s : String) : String :=
  ⟨((s.data.dropWhile (fun c => c = ' ')).reverse.dropWhile (fun c => c = ' ')).reverse⟩
/-- Fuel-indexed body of `convertToWords`. -/
def convertToWordsAux : Nat → Nat → String
  | 0, _ => ""
  | fuel + 1, num =>
    if num = 0 then "Zero"
    else
      let w1 := if num / 10000000 > 0
        then convertToWordsAux fuel (num / 10000000) ++ " Crore " else ""
      let n1 := num % 10000000
      let w2 := if n1 / 100000 > 0
        then w1 ++ convertToWordsAux fuel (n1 / 100000) ++ " Lakh " else w1
      let n2 := n1 % 100000
      let w3 := if n2 / 1000 > 0
        then w2 ++ convertToWordsAux fuel (n2 / 1000) ++ " Thousand " else w2
      let n3 := n2 % 1000
      let w4 := if n3 / 100 > 0
        then w3 ++ convertToWordsAux fuel (n3 / 100) ++ " Hundred " else w3
      let n4 := n3 % 100
      let w5 :=
        if n4 > 0 then
          if n4 < 20 then w4 ++ onesWords.getD n4 ""
          else
            w4 ++ tensWords.getD (n4 / 10) ""
              ++ (if n4 % 10 > 0 then " " ++ onesWords.getD (n4 % 10) "" else "")
        else w4
      trimSpaces w5
/-- Recursive Indian-system integer-to-words conversion (`convertToWords`). -/
def convertToWords (num : Nat) : String := convertToWordsAux (num + 1) num
/-- `amountToWords(amount)`: `Math.floor` rupees plus `Math.round` of the
fractional part times 100 as paise; the paise clause is appended only when
positive. -/
def amountToWords (amount : ℚ) : String :=
  let rupees : ℤ := ⌊amount⌋
  let paise : ℤ := round ((amount - (rupees : ℚ)) * 100)
  let result := convertToWords rupees.toNat ++ " Rupees"
  if 0 < paise then result ++ " and " ++ convertToWords paise.toNat ++ " Paise"
  else result
/-! ## Client list filtering (`client/src/store/invoiceStore.js`)

`getFilteredInvoices` filters the fetched in-memory list by search term,
document type and status (in that order), then sorts by the selected key.
The JS comparator sort is modelled as a sort by the corresponding total
order on the compared field; JS `toLowerCase` is the character-wise
`Char.toLower` map.
-/
/-- Filter state of the store. -/
structure StoreFilters where
  search : String
  type : String
  status : String
  sortBy : String
deriving DecidableEq
/-- The fields of a fetched invoice used by filtering and sorting. -/
structure StoreInvoice where
  customer_name : String
  invoice_number : String
  document_type : String
  status : String
  total_amount : ℚ
  created_at : Nat
deriving DecidableEq
/-- Lower-cased character list of a string (JS `toLowerCase()`). -/
def lowerData (s : String) : List Char := s.data.map Char.toLower
/-- Search predicate: the lower-cased term occurs as a substring of the
lower-cased customer name or invoice number. -/
def matchesSearch (search : String) (inv : StoreInvoice) : Bool :=
  decide (lowerData search <:+: lowerData inv.customer_name)
    || decide (lowerData search <:+: lowerData inv.invoice_number)
/-- The three filters, applied in source order (search, type, status);
an empty search term and the `'all'` selections are inactive. -/
def applyFilters (invoices : List StoreInvoice) (filters : StoreFilters) :
    List StoreInvoice :=
  let f1 := if filters.search = "" then invoices
    else invoices.filter (matchesSearch filters.search)
  let f2 := if filters.type = "all" then f1
    else f1.filter (fun inv => inv.document_type == filters.type)
  if filters.status = "all" then f2
  else f2.filter (fun inv => inv.status == filters.status)
/-- `getFilteredInvoices`: filters, then the `sortBy` switch (`newest` /
`oldest` by `created_at`, `amount_high` / `amount_low` by `total_amount`;
any other value leaves the filtered order). -/
def getFilteredInvoices (invoices : List StoreInvoice) (filters : StoreFilters) :
    List StoreInvoice :=
  let filtered := applyFilters invoices filters
  if filters.sortBy = "newest" then
    filtered.mergeSort (fun a b => decide (b.created_at ≤ a.created_at))
  else if filters.sortBy = "oldest" then
    filtered.mergeSort (fun a b => decide (a.created_at ≤ b.created_at))
  else if filters.sortBy = "amount_high" then
    filtered.mergeSort (fun a b => decide (b.total_amount ≤ a.total_amount))
  else if filters.sortBy = "amount_low" then
    filtered.mergeSort (fun a b => decide (a.total_amount ≤ b.total_amount))
  else filtered
/-! ## Authentication middleware (`server/src/middleware/auth.js`)

`authenticate` rejects requests without a `Bearer` authorization header,
then verifies the token with `supabaseAdmin.auth.getUser`, retrying up to
`AUTH_GET_USER_RETRIES` extra times on transient network errors.  The
provider is modelled as a function from the attempt index to the
`{data.user, error}` pair it returns; the user is reduced to its id.
-/
/-- One `getUser` response: `data.user` (reduced to the user id) and
`error` (reduced to its message; `none` is a null error). -/
structure GetUserResp where
  user : Option String
  error : Option String
deriving DecidableEq
/-- `isTransientAuthError`: a null/empty message is not transient; otherwise
the lower-cased message equals `'fetch failed'` or contains one of the
connectivity substrings. -/
def isTransientAuthError : Option String → Bool
  | none => false
  | some msg =>
    if msg = "" then false
    else
      let m := msg.data.map Char.toLower
      decide (m = "fetch failed".data) || decide ("econnrefused".data <:+: m)
        || decide ("etimedout".data <:+: m) || decide ("enotfound".data <:+: m)
        || decide ("network".data <:+: m)
/-- Number of extra retry attempts after the first `getUser` call. -/
def AUTH_GET_USER_RETRIES : Nat := 2
/-- The retry loop around `supabaseAdmin.auth.getUser`: returns the resolved
user (on a successful attempt) and the last error seen.  A non-error
response without a user, or a non-transient error, stops the loop at once;
a transient error retries while attempts remain. -/
def getUserLoop (provider : Nat → GetUserResp) :
    Nat → Nat → Option String → Option String × Option String
  | attempt, remaining, lastError =>
    let r := provider attempt
    match r.user, r.error with
    | some u, none => (some u, lastError)
    | _, e =>
      if e = none ∨ isTransientAuthError e = false then (none, e)
      else
        match remaining with
        | 0 => (none, e)
        | rem + 1 => getUserLoop provider (attempt + 1) rem e
/-- Outcome of the middleware: an HTTP error response, or control passed to
the next handler with the resolved user id attached. -/
inductive AuthResult where
  | respond (status : Nat) (error : String)
  | proceed (userId : String)
deriving DecidableEq
/-- JS `authHeader.startsWith('Bearer ')`. -/
def hasBearer (h : String) : Bool := decide ("Bearer ".data <+: h.data)
/-- The `authenticate` middleware: header check, retry loop, then the
`lastError || !user` discrimination into 503 (transient) / 401 (anything
else) or success. -/
def authenticate (authHeader : Option String) (provider : Nat → GetUserResp) :
    AuthResult :=
  match authHeader with
  | none => .respond 401 "Missing or invalid authorization header"
  | some h =>
    if hasBearer h = false then
      .respond 401 "Missing or invalid authorization header"
    else
      let res := getUserLoop provider 0 AUTH_GET_USER_RETRIES none
      if res.2.isSome ∨ res.1 = none then
        if isTransientAuthError res.2 = true then
          .respond 503 "Auth service temporarily unavailable. Please try again."
        else .respond 401 "Invalid or expired token"
      else
        match res.1 with
        | some uid => .proceed uid
        | none => .respond 401 "Invalid or expired token"

/-! ## Concrete instances used in witnesses and counterexamples -/

/-- A create payload accepted by `createInvoiceSchema` although its
`total_amount` (5) differs from `max(subtotal + tax_amount −
discount_amount, 0)` (118): every financial figure is individually
nonnegative, which is all the schema checks. -/
def demoPayload : InvoicePayload :=
  { document_type := "invoice"
    customer_name := "Rajan Kumar"
    customer_phone := "9876543210"
    customer_address := none
    customer_email := none
    services := [{ description := "Wardrobe work", quantity := 1, rate := 100, amount := 100 }]
    subtotal := 100
    tax_enabled := true
    tax_percentage := some 18
    tax_amount := 18
    discount_amount := some 0
    total_amount := 5
    invoice_date := "2026-01-15"
    due_date := none
    notes := none }

/-- Table after one create request on the empty table. -/
def demoState1 : List InvoiceRecord :=
  [] ++ [InvoiceService.create "user-1" demoPayload (latestNumberOf "user-1" []) 1]

/-- Table after a second create request by the same user. -/
def demoState2 : List InvoiceRecord :=
  demoState1
    ++ [InvoiceService.create "user-1" demoPayload (latestNumberOf "user-1" demoState1) 2]

/-- A stored invoice with every optional text field non-empty. -/
def origInvoice : InvoiceRecord :=
  { id := 3
    user_id := "user-1"
    invoice_number := formatInvoiceNumber 1
    document_type := "invoice"
    status := "paid"
    customer_name := "Rajan Kumar"
    customer_phone := "9876543210"
    customer_address := some "12 King St"
    customer_email := some "rajan@example.com"
    services := [{ description := "Wardrobe work", quantity := 1, rate := 100, amount := 100 }]
    subtotal := 100
    tax_enabled := false
    tax_percentage := none
    tax_amount := 0
    discount_amount := 0
    total_amount := 100
    invoice_date := "2026-01-15"
    due_date := some "2026-02-15"
    notes := some "Thank you for your business" }

/-- The same stored invoice with an empty-string customer address (storable
through the update schema, which allows `customer_address: ''`). -/
def blankAddressInvoice : InvoiceRecord :=
  { origInvoice with id := 4, customer_address := some "" }

/-- A fetched invoice matching search term `"rajan"`, type `invoice`,
status `paid`. -/
def rajanInvoice : StoreInvoice :=
  { customer_name := "Rajan Kumar"
    invoice_number := "CI-001"
    document_type := "invoice"
    status := "paid"
    total_amount := 500
    created_at := 1 }

/-- A fetched invoice matching none of the demo filters. -/
def meenaEstimate : StoreInvoice :=
  { customer_name := "Meena"
    invoice_number := "CI-002"
    document_type := "estimate"
    status := "draft"
    total_amount := 900
    created_at := 2 }

/-- Demo filter state: search, type and status all active, sorted by
highest amount. -/
def demoFilters : StoreFilters :=
  { search := "rajan", type := "invoice", status := "paid", sortBy := "amount_high" }

/-- Auth provider whose every response is a rejected (non-transient)
verification: an invalid or expired token. -/
def invalidTokenProvider : Nat → GetUserResp :=
  fun _ => { user := none, error := some "invalid JWT: token is expired" }

/-- Auth provider during an outage: every call fails with the transient
`fetch failed` network error. -/
def outageProvider : Nat → GetUserResp :=
  fun _ => { user := none, error := some "fetch failed" }

/-! ## Supporting lemmas -/

theorem floor_natCast_div_100 (n : ℕ) : ⌊(n:ℚ)/100⌋ = ((n / 100 : ℕ) : ℤ) := by
  have h := Rat.floor_intCast_div_natCast (n : ℤ) 100
  push_cast at h
  rw [h]
  omega

theorem paise_eq (n : ℕ) :
    round (((n:ℚ)/100 - ((⌊(n:ℚ)/100⌋ : ℤ) : ℚ)) * 100) = ((n % 100 : ℕ) : ℤ) := by
  rw [floor_natCast_div_100]
  have key : ((n:ℚ)/100 - (((n / 100 : ℕ) : ℤ) : ℚ)) * 100 = ((n % 100 : ℕ) : ℚ) := by
    have hn : (n : ℚ) = 100 * ((n / 100 : ℕ) : ℚ) + ((n % 100 : ℕ) : ℚ) := by
      exact_mod_cast (congrArg (fun k : ℕ => (k : ℚ)) (Nat.div_add_mod n 100)).symm
    rw [Int.cast_natCast]
    linarith
  rw [key, round_natCast]

theorem padStart3_three_le (cs : List Char) : 3 ≤ (padStart3 cs).length := by
  simp only [padStart3, List.length_append, List.length_replicate]
  omega


theorem natToDecimalAux_congr :
    ∀ f g n, n < f → n < g → natToDecimalAux f n = natToDecimalAux g n := by
  intro f
  induction f with
  | zero => intro g n h; omega
  | succ f ih =>
    intro g n hf hg
    match g with
    | 0 => omega
    | g + 1 =>
      simp only [natToDecimalAux]
      by_cases h10 : n < 10
      · simp [h10]
      · have hn : 0 < n := by omega
        have hdiv : n / 10 < n := Nat.div_lt_self hn (by omega)
        simp only [if_neg h10]
        rw [ih g (n / 10) (by omega) (by omega)]
theorem natToDecimal_eq (n : Nat) :
    natToDecimal n =
      if n < 10 then [digitChar n]
      else natToDecimal (n / 10) ++ [digitChar (n % 10)] := by
  unfold natToDecimal
  conv_lhs => rw [natToDecimalAux]
  by_cases h10 : n < 10
  · simp [h10]
  · have hn : 0 < n := by omega
    have hdiv : n / 10 < n := Nat.div_lt_self hn (by omega)
    simp only [if_neg h10]
    rw [natToDecimalAux_congr n (n / 10 + 1) (n / 10) (by omega) (by omega)]
theorem digitChar_isDigit {n : Nat} (h : n < 10) : (digitChar n).isDigit = true := by
  interval_cases n <;> decide
theorem digitChar_toNat {n : Nat} (h : n < 10) : (digitChar n).toNat - 48 = n := by
  interval_cases n <;> decide
theorem natToDecimal_ne_nil (n : Nat) : natToDecimal n ≠ [] := by
  rw [natToDecimal_eq]
  by_cases h10 : n < 10 <;> simp [h10]
theorem natToDecimal_all_digits (n : Nat) :
    ∀ c ∈ natToDecimal n, c.isDigit = true := by
  induction n using Nat.strong_induction_on with
  | _ n ih =>
    rw [natToDecimal_eq]
    by_cases h10 : n < 10
    · simp only [if_pos h10, List.mem_singleton]
      rintro c rfl
      exact digitChar_isDigit h10
    · have hn : 0 < n := by omega
      simp only [if_neg h10, List.mem_append, List.mem_singleton]
      rintro c (hc | rfl)
      · exact ih (n / 10) (Nat.div_lt_self hn (by omega)) c hc
      · exact digitChar_isDigit (Nat.mod_lt n (by omega))
theorem digitsToNat_concat (cs : List Char) (c : Char) :
    digitsToNat (cs ++ [c]) = 10 * digitsToNat cs + (c.toNat - 48) := by
  simp [digitsToNat, List.foldl_append]
theorem digitsToNat_natToDecimal (n : Nat) :
    digitsToNat (natToDecimal n) = n := by
  induction n using Nat.strong_induction_on with
  | _ n ih =>
    rw [natToDecimal_eq]
    by_cases h10 : n < 10
    · simp only [if_pos h10]
      show digitsToNat ([] ++ [digitChar n]) = n
      rw [digitsToNat_concat]
      simp [digitsToNat, digitChar_toNat h10]
    · have hn : 0 < n := by omega
      simp only [if_neg h10]
      rw [digitsToNat_concat, ih (n / 10) (Nat.div_lt_self hn (by omega)),
        digitChar_toNat (Nat.mod_lt n (by omega))]
      omega
theorem digitsToNat_replicate_zero (k : Nat) (cs : List Char) :
    digitsToNat (List.replicate k '0' ++ cs) = digitsToNat cs := by
  induction k with
  | zero => simp
  | succ k ih =>
    rw [List.replicate_succ, List.cons_append]
    show digitsToNat (('0' : Char) :: (List.replicate k '0' ++ cs)) = digitsToNat cs
    simpa [digitsToNat] using ih
theorem digitsToNat_padStart3 (cs : List Char) :
    digitsToNat (padStart3 cs) = digitsToNat cs :=
  digitsToNat_replicate_zero _ cs
theorem padStart3_all_digits (cs : List Char) (h : ∀ c ∈ cs, c.isDigit = true) :
    ∀ c ∈ padStart3 cs, c.isDigit = true := by
  intro c hc
  rcases List.mem_append.mp hc with h0 | h1
  · rcases List.eq_of_mem_replicate h0 with rfl; decide
  · exact h c h1
theorem padStart3_ne_nil (cs : List Char) (h : cs ≠ []) : padStart3 cs ≠ [] := by
  simp [padStart3, h]
theorem padStart3_length (cs : List Char) : 3 ≤ (padStart3 cs).length ∨ 3 ≤ cs.length := by
  simp only [padStart3, List.length_append, List.length_replicate]
  omega
theorem findCImatch_cons_digits (ds : List Char) (hne : ds ≠ [])
    (hdig : ∀ c ∈ ds, c.isDigit = true) :
    findCImatch ('C' :: 'I' :: '-' :: ds) = some ds := by
  have htake : ds.takeWhile Char.isDigit = ds := List.takeWhile_eq_self_iff.mpr hdig
  simp only [findCImatch, matchCIAt, htake, List.isEmpty_iff]
  simp [hne]
theorem formatInvoiceNumber_data (n : Nat) :
    (formatInvoiceNumber n).data = 'C' :: 'I' :: '-' :: padStart3 (natToDecimal n) := by
  simp [formatInvoiceNumber, String.data_append]
theorem numberValue_format (n : Nat) : numberValue (formatInvoiceNumber n) = n := by
  rw [numberValue, formatInvoiceNumber_data,
    findCImatch_cons_digits _ (padStart3_ne_nil _ (natToDecimal_ne_nil n))
      (padStart3_all_digits _ (natToDecimal_all_digits n))]
  simp [digitsToNat_padStart3, digitsToNat_natToDecimal]
theorem formatInvoiceNumber_injective {m n : Nat}
    (h : formatInvoiceNumber m = formatInvoiceNumber n) : m = n := by
  have := congrArg numberValue h
  rwa [numberValue_format, numberValue_format] at this
theorem nextNumberNat_format (n : Nat) :
    nextNumberNat (some (formatInvoiceNumber n)) = n + 1 := by
  rw [nextNumberNat, formatInvoiceNumber_data,
    findCImatch_cons_digits _ (padStart3_ne_nil _ (natToDecimal_ne_nil n))
      (padStart3_all_digits _ (natToDecimal_all_digits n))]
  simp [digitsToNat_padStart3, digitsToNat_natToDecimal]
theorem round2_nonneg {q : ℚ} (h : 0 ≤ q) : 0 ≤ round2 q := by
  unfold round2
  have hr : (0 : ℤ) ≤ round (q * 100) := by
    rw [round_eq]
    rw [Int.le_floor]
    push_cast
    nlinarith
  positivity
theorem round2_zero : round2 0 = 0 := by
  unfold round2
  norm_num
theorem foldl_add_amount (l : List ServiceLine) :
    ∀ a : ℚ, l.foldl (fun sum s => sum + s.amount) a = a + (l.map (fun s => s.amount)).sum := by
  induction l with
  | nil => intro a; simp
  | cons s l ih =>
    intro a
    simp only [List.foldl_cons, List.map_cons, List.sum_cons, ih]
    ring
theorem calculations_subtotal (services : List ServiceLine) (taxEnabled : Bool)
    (pct disc : ℚ)
    (h : ∀ s ∈ services, s.amount = updateLineAmount s.quantity s.rate) :
    (calculations services taxEnabled pct disc).subtotal
      = (services.map (fun s => round2 (s.quantity * s.rate))).sum := by
  show services.foldl (fun sum s => sum + s.amount) 0 = _
  rw [foldl_add_amount, zero_add]
  congr 1
  exact List.map_congr_left (fun s hs => h s hs)
theorem invoicesOf_append_one (uid : String) (s : List InvoiceRecord) (r : InvoiceRecord) :
    invoicesOf uid (s ++ [r])
      = invoicesOf uid s ++ (if r.user_id = uid then [r] else []) := by
  unfold invoicesOf
  rw [List.filter_append]
  congr 1
  by_cases h : r.user_id = uid <;> simp [h]
theorem latestNumberOf_eq (uid : String) (s : List InvoiceRecord) :
    latestNumberOf uid s
      = ((invoicesOf uid s).map (fun r => r.invoice_number)).getLast? := by
  unfold latestNumberOf
  rw [List.getLast?_map]
theorem nextNumberNat_range (k : Nat) :
    nextNumberNat (((List.range' 1 k).map formatInvoiceNumber).getLast?) = k + 1 := by
  cases k with
  | zero => rfl
  | succ m =>
    rw [List.range'_1_concat, List.map_append, List.map_singleton, List.getLast?_concat,
      nextNumberNat_format]
    omega
theorem create_step_canonical (s : List InvoiceRecord) (uid : String)
    (d : InvoicePayload) (newId : Nat) (h : NumbersCanonical s) :
    NumbersCanonical
      (s ++ [InvoiceService.create uid d (latestNumberOf uid s) newId]) := by
  intro uid'
  have hru : (InvoiceService.create uid d (latestNumberOf uid s) newId).user_id = uid := rfl
  rw [invoicesOf_append_one, hru]
  by_cases hcase : uid = uid'
  · subst hcase
    rw [if_pos rfl]
    have hk := h uid
    have hlatest : latestNumberOf uid s
        = ((List.range' 1 (invoicesOf uid s).length).map formatInvoiceNumber).getLast? := by
      rw [latestNumberOf_eq, hk]
    have hnum : (InvoiceService.create uid d (latestNumberOf uid s) newId).invoice_number
        = formatInvoiceNumber ((invoicesOf uid s).length + 1) := by
      show formatInvoiceNumber (nextNumberNat (latestNumberOf uid s)) = _
      rw [hlatest, nextNumberNat_range]
    rw [List.map_append, List.map_singleton, hnum, hk, List.length_append,
      List.length_singleton, List.range'_1_concat, List.map_append, List.map_singleton,
      Nat.add_comm 1 (invoicesOf uid s).length]
  · rw [if_neg hcase]
    simpa using h uid'
theorem step_canonical {s t : List InvoiceRecord} (hstep : Step s t)
    (h : NumbersCanonical s) : NumbersCanonical t := by
  cases hstep with
  | create uid d newId hid => exact create_step_canonical s uid d newId h
  | dup uid orig today newId horig huid hid =>
    exact create_step_canonical s uid (InvoiceService.duplicatedData orig today) newId h
theorem reachable_canonical {s : List InvoiceRecord} (h : Reachable s) :
    NumbersCanonical s := by
  induction h with
  | nil => intro uid; rfl
  | step _ hstep ih => exact step_canonical hstep ih

/-! ## Claim theorems -/

/-- C1 (counterexample): the totals claim is false as stated, because the
code rounds the tax amount to two decimals.  With the single line item
`quantity 1, rate 0.01` (amount synced by `updateLineAmount`), tax enabled
at 5%, the code computes `taxAmount = 0` while the claimed exact formula
`subtotal × pct / 100` gives `0.0005`. -/
theorem calculations_taxAmount_not_exact :
    ¬ ((calculations [{ quantity := 1, rate := 1/100, amount := updateLineAmount 1 (1/100) }]
          true 5 0).taxAmount
        = (calculations [{ quantity := 1, rate := 1/100, amount := updateLineAmount 1 (1/100) }]
            true 5 0).subtotal * 5 / 100) := by
  norm_num [calculations, updateLineAmount, round2, round_eq]

/-- C1 (amended): for every list of line items whose amounts are synced by
`updateLineAmount` and all tax/discount inputs, the client totals satisfy:
`subtotal` is the sum of the per-line amounts (quantity × rate rounded to 2
decimals), `taxAmount` is `subtotal × pct / 100` rounded to 2 decimals when
tax is enabled and `0` otherwise, `total` is
`max(subtotal + taxAmount − discount, 0)` rounded to 2 decimals; the total
is never negative, and is exactly `0` whenever the discount reaches
`subtotal + taxAmount`. -/
theorem useInvoiceCalculations_totals (services : List ServiceLine)
    (taxEnabled : Bool) (pct disc : ℚ)
    (hsync : ∀ s ∈ services, s.amount = updateLineAmount s.quantity s.rate) :
    (calculations services taxEnabled pct disc).subtotal
        = (services.map (fun s => round2 (s.quantity * s.rate))).sum
    ∧ (calculations services taxEnabled pct disc).taxAmount
        = (if taxEnabled then
            round2 ((calculations services taxEnabled pct disc).subtotal * pct / 100)
          else 0)
    ∧ (calculations services taxEnabled pct disc).total
        = round2 (max ((calculations services taxEnabled pct disc).subtotal
            + (calculations services taxEnabled pct disc).taxAmount - disc) 0)
    ∧ 0 ≤ (calculations services taxEnabled pct disc).total
    ∧ ((calculations services taxEnabled pct disc).subtotal
          + (calculations services taxEnabled pct disc).taxAmount ≤ disc →
        (calculations services taxEnabled pct disc).total = 0) := by
  refine ⟨calculations_subtotal services taxEnabled pct disc hsync, rfl, rfl,
    round2_nonneg (le_max_right _ 0), ?_⟩
  intro hdisc
  show round2 (max ((calculations services taxEnabled pct disc).subtotal
      + (calculations services taxEnabled pct disc).taxAmount - disc) 0) = 0
  rw [max_eq_right (by linarith), round2_zero]

/-- C1 (witness): concrete run with one line `2 × 3`, 18% tax and a 1000
discount: the total is clamped to exactly 0, hence nonnegative. -/
theorem useInvoiceCalculations_totals_witness :
    0 ≤ (calculations [{ quantity := 2, rate := 3, amount := updateLineAmount 2 3 }]
          true 18 1000).total
    ∧ (calculations [{ quantity := 2, rate := 3, amount := updateLineAmount 2 3 }]
          true 18 1000).total = 0 := by
  have h := useInvoiceCalculations_totals
    [{ quantity := 2, rate := 3, amount := updateLineAmount 2 3 }] true 18 1000
    (by intro s hs; rcases List.mem_singleton.mp hs with rfl; rfl)
  refine ⟨h.2.2.2.1, h.2.2.2.2 ?_⟩
  norm_num [calculations, updateLineAmount, round2, round_eq]

/-- C2: the generator propagates a database error unchanged, returns
`CI-001` for a user with no prior invoice, maps a latest number
`CI-<digits n>` to `CI-` plus zero-padded `n + 1` by regex-extracting and
incrementing the trailing digits, and every non-error result is `CI-`
followed by at least 3 digit characters. -/
theorem generateInvoiceNumber_spec (e : DbError) (ds : List Char)
    (latest : Option String) :
    generateInvoiceNumber (.error e) = .error e
    ∧ generateInvoiceNumber (.ok none) = .ok "CI-001"
    ∧ (ds ≠ [] → (∀ c ∈ ds, c.isDigit = true) →
        generateInvoiceNumber (.ok (some ("CI-" ++ String.mk ds)))
          = .ok (formatInvoiceNumber (digitsToNat ds + 1)))
    ∧ (∃ out, generateInvoiceNumber (.ok latest) = .ok out
        ∧ ∃ dcs : List Char, out = "CI-" ++ String.mk dcs
            ∧ 3 ≤ dcs.length ∧ ∀ c ∈ dcs, c.isDigit = true) := by
  refine ⟨rfl, rfl, ?_, ?_⟩
  · intro hne hdig
    have hdata : ("CI-" ++ String.mk ds).data = 'C' :: 'I' :: '-' :: ds := by
      simp [String.data_append]
    show Except.ok (formatInvoiceNumber (nextNumberNat (some ("CI-" ++ String.mk ds))))
      = Except.ok (formatInvoiceNumber (digitsToNat ds + 1))
    have hnext : nextNumberNat (some ("CI-" ++ String.mk ds)) = digitsToNat ds + 1 := by
      show (match findCImatch ("CI-" ++ String.mk ds).data with
        | some got => digitsToNat got + 1
        | none => 1) = digitsToNat ds + 1
      rw [hdata, findCImatch_cons_digits ds hne hdig]
    rw [hnext]
  · refine ⟨formatInvoiceNumber (nextNumberNat latest), rfl,
      padStart3 (natToDecimal (nextNumberNat latest)), rfl,
      padStart3_three_le _, padStart3_all_digits _ (natToDecimal_all_digits _)⟩

/-- C2 (witness): concrete runs — latest number `CI-007` yields `CI-008`;
a fresh user gets `CI-001`; a database error is rethrown. -/
theorem generateInvoiceNumber_spec_witness :
    generateInvoiceNumber (.ok (some "CI-007")) = .ok "CI-008"
    ∧ generateInvoiceNumber (.ok none) = .ok "CI-001"
    ∧ generateInvoiceNumber (.error ⟨"db down"⟩) = .error ⟨"db down"⟩ := by
  have h := generateInvoiceNumber_spec ⟨"db down"⟩ "007".data none
  have h3 := h.2.2.1 (by decide) (by decide)
  have e1 : ("CI-" ++ String.mk "007".data) = "CI-007" := by decide
  have e2 : formatInvoiceNumber (digitsToNat "007".data + 1) = "CI-008" := by decide
  rw [e1, e2] at h3
  exact ⟨h3, h.2.1, h.1⟩

/-- C10: when the latest invoice number of the user does not match
`CI-(\d+)` at all, the generator silently restarts the sequence: it returns
`CI-001`, the same number the very first create for that user produced. -/
theorem generateInvoiceNumber_malformed_reset (s : String)
    (h : findCImatch s.data = none) :
    generateInvoiceNumber (.ok (some s)) = .ok "CI-001"
    ∧ generateInvoiceNumber (.ok (some s)) = generateInvoiceNumber (.ok none) := by
  have h1 : nextNumberNat (some s) = 1 := by
    show (match findCImatch s.data with
      | some got => digitsToNat got + 1
      | none => 1) = 1
    rw [h]
  constructor
  · show Except.ok (formatInvoiceNumber (nextNumberNat (some s))) = _
    rw [h1]
    exact congrArg Except.ok (by decide)
  · show Except.ok (formatInvoiceNumber (nextNumberNat (some s)))
      = Except.ok (formatInvoiceNumber (nextNumberNat none))
    rw [h1]
    rfl

/-- C10 (witness): a malformed latest number `INV-005` makes the generator
return `CI-001` again. -/
theorem generateInvoiceNumber_malformed_reset_witness :
    generateInvoiceNumber (.ok (some "INV-005")) = .ok "CI-001" :=
  (generateInvoiceNumber_malformed_reset "INV-005" (by decide)).1

/-- C3: for every payload accepted by `createInvoiceSchema`, the create
operation persists the client-submitted financial fields exactly as
submitted (the discount defaulting to 0 when absent, as Joi's
`.default(0)` and the service's `|| 0` do) — there is no server-side
recomputation, so acceptance never depends on the totals formula. -/
theorem create_trusts_client_totals (uid : String) (p : InvoicePayload)
    (latest : Option String) (newId : Nat)
    (_hvalid : createInvoiceSchemaValid p) :
    (InvoiceService.create uid p latest newId).subtotal = p.subtotal
    ∧ (InvoiceService.create uid p latest newId).tax_amount = p.tax_amount
    ∧ (InvoiceService.create uid p latest newId).discount_amount
        = p.discount_amount.getD 0
    ∧ (InvoiceService.create uid p latest newId).total_amount = p.total_amount
    ∧ (InvoiceService.create uid p latest newId).tax_enabled = p.tax_enabled
    ∧ (InvoiceService.create uid p latest newId).tax_percentage = p.tax_percentage :=
  ⟨rfl, rfl, rfl, rfl, rfl, rfl⟩

/-- C3 (witness): `demoPayload` is accepted by the schema although its
total (5) is not `max(subtotal + tax_amount − discount_amount, 0)` (118),
and create stores that total unchanged. -/
theorem create_trusts_client_totals_witness :
    createInvoiceSchemaValid demoPayload
    ∧ demoPayload.total_amount
        ≠ max (demoPayload.subtotal + demoPayload.tax_amount
            - demoPayload.discount_amount.getD 0) 0
    ∧ (InvoiceService.create "user-1" demoPayload none 1).total_amount
        = demoPayload.total_amount := by
  have hvalid : createInvoiceSchemaValid demoPayload := by
    refine ⟨Or.inl rfl, by decide, by decide, by decide, ?_, ?_, by decide, ?_,
      by norm_num [demoPayload], ?_, ?_, by norm_num [demoPayload], ?_,
      by norm_num [demoPayload], ?_⟩
    · intro t ht
      simp [demoPayload] at ht
    · intro t ht
      simp [demoPayload] at ht
    · intro s hs
      rcases List.mem_singleton.mp hs with rfl
      exact ⟨by decide, by decide, by norm_num, by norm_num, by norm_num,
        by norm_num, by norm_num⟩
    · intro _
      rfl
    · intro q hq
      simp only [demoPayload, Option.some.injEq] at hq
      rcases hq with rfl
      exact ⟨by norm_num, by norm_num⟩
    · intro q hq
      simp only [demoPayload, Option.some.injEq] at hq
      rcases hq with rfl
      norm_num
    · intro t ht
      simp [demoPayload] at ht
  refine ⟨hvalid, by norm_num [demoPayload, max_def], ?_⟩
  exact (create_trusts_client_totals "user-1" demoPayload none 1 hvalid).2.2.2.1

/-- C8: every invoice a sequential create or duplicate request adds to the
table has status `draft`, regardless of the payload — the created invoice
always starts as a draft. -/
theorem created_invoice_starts_draft {s t : List InvoiceRecord}
    (hstep : Step s t) : ∀ r ∈ t, r ∈ s ∨ r.status = "draft" := by
  cases hstep with
  | create uid d newId hid =>
    intro r hr
    rcases List.mem_append.mp hr with h | h
    · exact Or.inl h
    · rcases List.mem_singleton.mp h with rfl
      exact Or.inr rfl
  | dup uid orig today newId horig huid hid =>
    intro r hr
    rcases List.mem_append.mp hr with h | h
    · exact Or.inl h
    · rcases List.mem_singleton.mp h with rfl
      exact Or.inr rfl

/-- C8 (witness): the invoice created by a concrete create request on the
empty table has status `draft`. -/
theorem created_invoice_starts_draft_witness :
    (InvoiceService.create "user-1" demoPayload (latestNumberOf "user-1" []) 1).status
      = "draft" := by
  have h := created_invoice_starts_draft
    (Step.create [] "user-1" demoPayload 1 (by simp))
    (InvoiceService.create "user-1" demoPayload (latestNumberOf "user-1" []) 1)
    (by simp)
  exact h.resolve_left (by simp)

/-- C9: in every table reachable by sequential create and duplicate
requests, each user's invoice numbers are pairwise distinct and strictly
increasing (in numeric value) in creation order. -/
theorem invoiceNumbers_unique_monotone {st : List InvoiceRecord}
    (h : Reachable st) (uid : String) :
    ((invoicesOf uid st).map (fun r => r.invoice_number)).Pairwise
      (fun a b => a ≠ b ∧ numberValue a < numberValue b) := by
  have hc := reachable_canonical h uid
  rw [hc, List.pairwise_map]
  have hp : (List.range' 1 (invoicesOf uid st).length).Pairwise (· < ·) :=
    List.pairwise_lt_range' 1 (invoicesOf uid st).length
  refine hp.imp ?_
  intro a b hab
  refine ⟨fun he => ?_, ?_⟩
  · have := formatInvoiceNumber_injective he
    omega
  · rw [numberValue_format, numberValue_format]
    exact hab

/-- C9 (witness): after two concrete create requests by the same user, the
stored numbers are pairwise distinct and increasing. -/
theorem invoiceNumbers_unique_monotone_witness :
    ((invoicesOf "user-1" demoState2).map (fun r => r.invoice_number)).Pairwise
      (fun a b => a ≠ b ∧ numberValue a < numberValue b) := by
  have hstep1 : Step [] demoState1 :=
    Step.create [] "user-1" demoPayload 1 (by simp)
  have hstep2 : Step demoState1 demoState2 := by
    refine Step.create demoState1 "user-1" demoPayload 2 ?_
    intro r hr
    simp only [demoState1, List.nil_append, List.mem_singleton] at hr
    subst hr
    decide
  exact invoiceNumbers_unique_monotone
    (Reachable.step (Reachable.step Reachable.nil hstep1) hstep2) "user-1"

/-- C4 (counterexample): the duplicate claim is false as stated, because
`create` normalizes optional text fields with `|| null`: duplicating an
invoice whose stored customer address is the empty string (storable via the
update schema) yields `null`, not an equal field. -/
theorem duplicate_blank_address_not_copied :
    (InvoiceService.duplicate "user-1" blankAddressInvoice
        (some (formatInvoiceNumber 2)) 9 "2026-02-12").customer_address
      ≠ blankAddressInvoice.customer_address := by
  decide

/-- C4 (amended): duplicating an invoice whose number is canonical `CI-m`,
when the user's latest number is canonical `CI-n` with `m ≤ n` and the
database assigns a fresh id, creates a record with a new id and a new
number, status `draft`, due date `null`, invoice date equal to the call
date, and every other field equal to the source — except that the optional
text fields (address, email, notes) go through `|| null`, which maps an
empty string to `null` and leaves any other value unchanged. -/
theorem duplicate_spec (uid : String) (orig : InvoiceRecord) (newId : Nat)
    (today : String) (m n : Nat)
    (hm : orig.invoice_number = formatInvoiceNumber m)
    (hmn : m ≤ n)
    (hid : newId ≠ orig.id) :
    (InvoiceService.duplicate uid orig (some (formatInvoiceNumber n)) newId today).id
        ≠ orig.id
    ∧ (InvoiceService.duplicate uid orig (some (formatInvoiceNumber n)) newId today).invoice_number
        ≠ orig.invoice_number
    ∧ (InvoiceService.duplicate uid orig (some (formatInvoiceNumber n)) newId today).status
        = "draft"
    ∧ (InvoiceService.duplicate uid orig (some (formatInvoiceNumber n)) newId today).due_date
        = none
    ∧ (InvoiceService.duplicate uid orig (some (formatInvoiceNumber n)) newId today).invoice_date
        = today
    ∧ (InvoiceService.duplicate uid orig (some (formatInvoiceNumber n)) newId today).user_id
        = uid
    ∧ (InvoiceService.duplicate uid orig (some (formatInvoiceNumber n)) newId today).document_type
        = orig.document_type
    ∧ (InvoiceService.duplicate uid orig (some (formatInvoiceNumber n)) newId today).customer_name
        = orig.customer_name
    ∧ (InvoiceService.duplicate uid orig (some (formatInvoiceNumber n)) newId today).customer_phone
        = orig.customer_phone
    ∧ (InvoiceService.duplicate uid orig (some (formatInvoiceNumber n)) newId today).customer_address
        = orNull orig.customer_address
    ∧ (InvoiceService.duplicate uid orig (some (formatInvoiceNumber n)) newId today).customer_email
        = orNull orig.customer_email
    ∧ (InvoiceService.duplicate uid orig (some (formatInvoiceNumber n)) newId today).services
        = orig.services
    ∧ (InvoiceService.duplicate uid orig (some (formatInvoiceNumber n)) newId today).subtotal
        = orig.subtotal
    ∧ (InvoiceService.duplicate uid orig (some (formatInvoiceNumber n)) newId today).tax_enabled
        = orig.tax_enabled
    ∧ (InvoiceService.duplicate uid orig (some (formatInvoiceNumber n)) newId today).tax_percentage
        = orig.tax_percentage
    ∧ (InvoiceService.duplicate uid orig (some (formatInvoiceNumber n)) newId today).tax_amount
        = orig.tax_amount
    ∧ (InvoiceService.duplicate uid orig (some (formatInvoiceNumber n)) newId today).discount_amount
        = orig.discount_amount
    ∧ (InvoiceService.duplicate uid orig (some (formatInvoiceNumber n)) newId today).total_amount
        = orig.total_amount
    ∧ (InvoiceService.duplicate uid orig (some (formatInvoiceNumber n)) newId today).notes
        = orNull orig.notes := by
  have hnum : (InvoiceService.duplicate uid orig (some (formatInvoiceNumber n)) newId today).invoice_number
      = formatInvoiceNumber (n + 1) := by
    show formatInvoiceNumber (nextNumberNat (some (formatInvoiceNumber n))) = _
    rw [nextNumberNat_format]
  refine ⟨hid, ?_, rfl, rfl, rfl, rfl, rfl, rfl, rfl, rfl, rfl, rfl, rfl, rfl, rfl,
    rfl, rfl, rfl, rfl⟩
  rw [hnum, hm]
  intro he
  have := formatInvoiceNumber_injective he
  omega

/-- C4 (witness): duplicating a concrete invoice (number `CI-001`, latest
`CI-002`, fresh id 9) on 2026-02-12: new number, draft status, cleared due
date, today's invoice date, and the non-empty address copied through
`|| null` unchanged. -/
theorem duplicate_spec_witness :
    (InvoiceService.duplicate "user-1" origInvoice
        (some (formatInvoiceNumber 2)) 9 "2026-02-12").invoice_number
      ≠ origInvoice.invoice_number
    ∧ (InvoiceService.duplicate "user-1" origInvoice
        (some (formatInvoiceNumber 2)) 9 "2026-02-12").status = "draft"
    ∧ (InvoiceService.duplicate "user-1" origInvoice
        (some (formatInvoiceNumber 2)) 9 "2026-02-12").due_date = none
    ∧ (InvoiceService.duplicate "user-1" origInvoice
        (some (formatInvoiceNumber 2)) 9 "2026-02-12").invoice_date = "2026-02-12"
    ∧ (InvoiceService.duplicate "user-1" origInvoice
        (some (formatInvoiceNumber 2)) 9 "2026-02-12").customer_address
        = orNull origInvoice.customer_address := by
  have h := duplicate_spec "user-1" origInvoice 9 "2026-02-12" 1 2 rfl (by omega)
    (by decide)
  exact ⟨h.2.1, h.2.2.1, h.2.2.2.1, h.2.2.2.2.1, h.2.2.2.2.2.2.2.2.2.1⟩

theorem suffix_Rupees (w : String) : "Rupees".data <:+ (w ++ " Rupees").data := by
  rw [String.data_append]
  exact (show "Rupees".data <:+ " Rupees".data by decide).trans (List.suffix_append _ _)

theorem amountToWords_cents (n : ℕ) :
    amountToWords ((n:ℚ)/100)
      = if (0:ℤ) < ((n % 100 : ℕ) : ℤ) then
          (convertToWords (n / 100) ++ " Rupees") ++ " and "
            ++ convertToWords (n % 100) ++ " Paise"
        else convertToWords (n / 100) ++ " Rupees" := by
  simp only [amountToWords]
  rw [paise_eq, floor_natCast_div_100]
  simp only [Int.toNat_natCast]

/-- C5 (counterexample): the claim is false as stated — for an amount with
a nonzero paise part the output ends with the paise clause, not with
`Rupees`: `amountToWords(0.50) = "Zero Rupees and Fifty Paise"`. -/
theorem amountToWords_not_endsWith_Rupees :
    ¬ ("Rupees".data <:+ (amountToWords ((50:ℚ)/100)).data) := by
  have h1 : ⌊(50:ℚ)/100⌋ = (0:ℤ) := by norm_num
  have h2 : round (((50:ℚ)/100 - ((0:ℤ):ℚ)) * 100) = (50:ℤ) := by
    norm_num [round_eq]
  simp only [amountToWords, h1, h2]
  decide

/-- C5 (amended): for every amount `n/100` rupees (`n` cents, `n ≥ 0`), the
output of `amountToWords` contains `Rupees`; it ends with `Rupees` when the
fractional cents part is zero, and otherwise ends with
`and <words of the paise> Paise`, the integer-to-words conversion being the
Indian-scale `convertToWords`. -/
theorem amountToWords_spec (n : ℕ) :
    ("Rupees".data <:+: (amountToWords ((n:ℚ)/100)).data)
    ∧ (n % 100 = 0 → "Rupees".data <:+ (amountToWords ((n:ℚ)/100)).data)
    ∧ (n % 100 ≠ 0 →
        (" and " ++ convertToWords (n % 100) ++ " Paise").data
          <:+ (amountToWords ((n:ℚ)/100)).data) := by
  rw [amountToWords_cents]
  by_cases h0 : n % 100 = 0
  · have hcond : ¬ ((0:ℤ) < ((n % 100 : ℕ) : ℤ)) := by simp [h0]
    rw [if_neg hcond]
    exact ⟨(suffix_Rupees _).isInfix, fun _ => suffix_Rupees _,
      fun hne => absurd h0 hne⟩
  · have hcond : (0:ℤ) < ((n % 100 : ℕ) : ℤ) := by
      exact_mod_cast Nat.pos_of_ne_zero h0
    rw [if_pos hcond]
    simp only [String.data_append, List.append_assoc]
    refine ⟨?_, fun he => absurd he h0, fun _ => ?_⟩
    · exact ((show "Rupees".data <:+: " Rupees".data by decide).trans
        ((List.prefix_append _ _).isInfix)).trans ((List.suffix_append _ _).isInfix)
    · exact (List.suffix_append _ _).trans (List.suffix_append _ _)

/-- C5 (witness): `amountToWords(1.50)`: the output contains `Rupees` and
ends with the paise clause `and Fifty Paise`. -/
theorem amountToWords_spec_witness :
    ("Rupees".data <:+: (amountToWords (((150:ℕ):ℚ)/100)).data)
    ∧ (" and " ++ convertToWords (150 % 100) ++ " Paise").data
        <:+ (amountToWords (((150:ℕ):ℚ)/100)).data :=
  ⟨(amountToWords_spec 150).1, (amountToWords_spec 150).2.2 (by decide)⟩

theorem mem_applyFilters (invs : List StoreInvoice) (f : StoreFilters)
    (inv : StoreInvoice) :
    inv ∈ applyFilters invs f
      ↔ inv ∈ invs ∧ (f.search ≠ "" → matchesSearch f.search inv = true)
          ∧ (f.type ≠ "all" → inv.document_type = f.type)
          ∧ (f.status ≠ "all" → inv.status = f.status) := by
  unfold applyFilters
  by_cases hs : f.search = "" <;> by_cases ht : f.type = "all" <;>
    by_cases hst : f.status = "all" <;>
    simp [hs, ht, hst, List.mem_filter] <;> tauto

theorem sorted_amount_high (l : List StoreInvoice) :
    (l.mergeSort (fun a b => decide (b.total_amount ≤ a.total_amount))).Pairwise
      (fun a b => b.total_amount ≤ a.total_amount) := by
  refine (List.sorted_mergeSort ?_ ?_ l).imp (fun hab => of_decide_eq_true hab)
  · intro a b c hab hbc
    simp only [decide_eq_true_eq] at *
    exact le_trans hbc hab
  · intro a b
    simp only [Bool.or_eq_true, decide_eq_true_eq]
    exact le_total b.total_amount a.total_amount

/-- C6: the filtered view contains exactly the fetched records that satisfy
every active predicate — the case-insensitive substring search on customer
name or invoice number, the exact document-type filter, and the exact
status filter — and with `sortBy = amount_high` the view (computed by
sorting after filtering) is ordered by descending total amount. -/
theorem getFilteredInvoices_spec (invs : List StoreInvoice) (f : StoreFilters)
    (inv : StoreInvoice) :
    (inv ∈ getFilteredInvoices invs f
      ↔ inv ∈ invs ∧ (f.search ≠ "" → matchesSearch f.search inv = true)
          ∧ (f.type ≠ "all" → inv.document_type = f.type)
          ∧ (f.status ≠ "all" → inv.status = f.status))
    ∧ (f.sortBy = "amount_high" →
        (getFilteredInvoices invs f).Pairwise
          (fun a b => b.total_amount ≤ a.total_amount)) := by
  constructor
  · rw [← mem_applyFilters invs f inv]
    unfold getFilteredInvoices
    split_ifs <;> simp [List.mem_mergeSort]
  · intro hsort
    unfold getFilteredInvoices
    rw [hsort]
    rw [if_neg (by decide), if_neg (by decide), if_pos rfl]
    exact sorted_amount_high _

/-- C6 (witness): on a concrete two-invoice list, the search term `rajan`
matches customer `Rajan Kumar` case-insensitively, the combined
`type=invoice, status=paid` filters retain that record, and the
`amount_high` result is sorted by descending total. -/
theorem getFilteredInvoices_spec_witness :
    rajanInvoice ∈ getFilteredInvoices [rajanInvoice, meenaEstimate] demoFilters
    ∧ (getFilteredInvoices [rajanInvoice, meenaEstimate] demoFilters).Pairwise
        (fun a b => b.total_amount ≤ a.total_amount) := by
  refine ⟨?_, (getFilteredInvoices_spec [rajanInvoice, meenaEstimate] demoFilters
    rajanInvoice).2 rfl⟩
  refine (getFilteredInvoices_spec [rajanInvoice, meenaEstimate] demoFilters
    rajanInvoice).1.mpr ⟨List.mem_cons_self _ _, fun _ => by decide, fun _ => rfl,
    fun _ => rfl⟩

theorem getUserLoop_fail_fast (provider : Nat → GetUserResp)
    (attempt remaining : Nat) (lastError : Option String) (e : String)
    (he : (provider attempt).error = some e)
    (htr : isTransientAuthError (some e) = false) :
    getUserLoop provider attempt remaining lastError = (none, some e) := by
  rcases hu : (provider attempt).user with _ | u <;>
  · rw [getUserLoop.eq_def]
    simp only [hu, he]
    simp [htr]

theorem getUserLoop_all_transient (provider : Nat → GetUserResp)
    (hall : ∀ i, ∃ msg, (provider i).error = some msg
      ∧ isTransientAuthError (some msg) = true) :
    ∀ remaining attempt lastError, ∃ msg,
      getUserLoop provider attempt remaining lastError = (none, some msg)
        ∧ isTransientAuthError (some msg) = true := by
  intro remaining
  induction remaining with
  | zero =>
    intro attempt lastError
    obtain ⟨msg, he, htr⟩ := hall attempt
    refine ⟨msg, ?_, htr⟩
    rcases hu : (provider attempt).user with _ | u <;>
    · rw [getUserLoop.eq_def]
      simp only [hu, he]
      simp [htr]
  | succ rem ih =>
    intro attempt lastError
    obtain ⟨msg, he, htr⟩ := hall attempt
    obtain ⟨msg', hloop, htr'⟩ := ih (attempt + 1) (some msg)
    refine ⟨msg', ?_, htr'⟩
    rcases hu : (provider attempt).user with _ | u <;>
    · rw [getUserLoop.eq_def]
      simp only [hu, he]
      simp [htr, hloop]

/-- C7: the authentication middleware answers 401 to a request without a
bearer authorization header; 401 when the provider rejects the token with a
non-transient (invalid/expired) error; and 503 — not 500 — when every
verification attempt fails with a transient network error (provider
outage persisting through the limited retries). -/
theorem authenticate_spec (provider : Nat → GetUserResp) (h : String)
    (e : String) :
    authenticate none provider
        = .respond 401 "Missing or invalid authorization header"
    ∧ (hasBearer h = false →
        authenticate (some h) provider
          = .respond 401 "Missing or invalid authorization header")
    ∧ (hasBearer h = true → (provider 0).error = some e →
        isTransientAuthError (some e) = false →
        authenticate (some h) provider = .respond 401 "Invalid or expired token")
    ∧ (hasBearer h = true →
        (∀ i, ∃ msg, (provider i).error = some msg
          ∧ isTransientAuthError (some msg) = true) →
        authenticate (some h) provider
          = .respond 503 "Auth service temporarily unavailable. Please try again.") := by
  refine ⟨rfl, ?_, ?_, ?_⟩
  · intro hb
    simp [authenticate, hb]
  · intro hb he htr
    have hloop := getUserLoop_fail_fast provider 0 AUTH_GET_USER_RETRIES none e he htr
    simp [authenticate, hb, hloop, htr]
  · intro hb hall
    obtain ⟨msg, hloop, htr⟩ :=
      getUserLoop_all_transient provider hall AUTH_GET_USER_RETRIES 0 none
    simp [authenticate, hb, hloop, htr]

/-- C7 (witness): concrete runs — a missing header, a provider rejecting
the token as expired (401), and a full outage (503). -/
theorem authenticate_spec_witness :
    authenticate none invalidTokenProvider
        = .respond 401 "Missing or invalid authorization header"
    ∧ authenticate (some "Bearer tok") invalidTokenProvider
        = .respond 401 "Invalid or expired token"
    ∧ authenticate (some "Bearer tok") outageProvider
        = .respond 503 "Auth service temporarily unavailable. Please try again." := by
  refine ⟨(authenticate_spec invalidTokenProvider "Bearer tok" "x").1, ?_, ?_⟩
  · exact (authenticate_spec invalidTokenProvider "Bearer tok"
      "invalid JWT: token is expired").2.2.1 (by decide) rfl (by decide)
  · exact (authenticate_spec outageProvider "Bearer tok" "x").2.2.2 (by decide)
      (fun i => ⟨"fetch failed", rfl, by decide⟩)
